import Mathlib

/-!
Shallow embedding of the tile lifecycle / load-state engine of
`src/Cesium3DTiles/src/Tile.cpp`, together with theorems settling the
specification claims about it.

External collaborator types (projections, rectangles, models, renderer
handles, pointers) are opaque to the engine; they are modelled by plain
stand-in types.  Side effects on collaborators (tileset notification,
task scheduling, renderer preparation, texture-coordinate generation)
are modelled as an event trace returned next to the updated tile.
-/

namespace Cesium3DTiles

/-- Opaque stand-in for `CesiumGeospatial::Projection` (external library). -/
abbrev Projection := Nat

/-- Opaque stand-in for `CesiumGeospatial::GlobeRectangle` (external library). -/
abbrev GlobeRectangle := Nat

/-- Opaque stand-in for `CesiumGeometry::Rectangle` (external library). -/
abbrev Rectangle2D := Nat × Nat

/-- Opaque stand-in for a decoded glTF model (`tinygltf::Model`). -/
abbrev Model := Nat

/-- Opaque stand-in for the `void*` renderer-resource handle; `Option` models
nullability of the pointer. -/
abbrev RendererResources := Nat

/-- Address of a `Tileset` (raw non-owning pointer target). -/
abbrev TilesetPtr := Nat

/-- Address of a `Tile` (raw non-owning pointer target). -/
abbrev TilePtr := Nat

/-- Opaque stand-in for the `TileID` variant; the default constructor stores
an empty URL string. -/
abbrev TileID := String

/-- Opaque stand-in for the 4x4 transform matrix. -/
abbrev Mat4 := Nat

/-- Enum `Tile::LoadState` from `Tile.h`. -/
inductive LoadState where
  | Unloaded
  | ContentLoading
  | ContentLoaded
  | Done
  | Failed
  | Destroying
deriving DecidableEq, Repr

/-- Modelled from the spec: the numeric values of `Tile::LoadState` come from
`Tile.h`, which is not among the sources.  The ordering is reconstructed from
the spec's transition graph (section 4.A) and from the comparisons the source
performs: `state > ContentLoading` must mean a duplicate/late callback, i.e.
`ContentLoaded` or `Done` (section 4.D step 2), and `state >= ContentLoaded`
must mean the renderable states (invariant 5), so `Failed` and `Destroying`
sit below `Unloaded`. -/
def LoadState.code : LoadState → Int
  | .Destroying => -2
  | .Failed => -1
  | .Unloaded => 0
  | .ContentLoading => 1
  | .ContentLoaded => 2
  | .Done => 3

/-- Enum `TileRefine` from `Tile.h`. -/
inductive TileRefine where
  | Replace
  | Add
deriving DecidableEq, Repr

/-- The `_boundingVolume` variant.  The region alternatives carry the globe
rectangle that `std::get_if` + `getRectangle()` extract; other geometric
payload is opaque. -/
inductive BoundingVolume where
  | orientedBox (box : Nat)
  | region (rectangle : GlobeRectangle) (minimumHeight maximumHeight : ℚ)
  | looseRegion (rectangle : GlobeRectangle) (minimumHeight maximumHeight : ℚ)
  | sphere (s : Nat)
deriving DecidableEq, Repr

/-- The rectangle extraction performed at `Tile.cpp:139-147` and again at
`Tile.cpp:312-320`: a rectangle is available exactly for the two region
variants of the bounding volume. -/
def regionRectangle : BoundingVolume → Option GlobeRectangle
  | .region r _ _ => some r
  | .looseRegion r _ _ => some r
  | _ => none

/-- Interface `IAssetResponse`: status code, content type and payload bytes. -/
structure Response where
  statusCode : Int
  contentType : String
  data : List Nat
deriving DecidableEq, Repr

/-- Interface `IAssetRequest`: url plus the (possibly absent) response. -/
structure Request where
  url : String
  response : Option Response
deriving DecidableEq, Repr

/-- A raster-overlay tile provider; the engine only reads its projection. -/
structure RasterOverlayTileProvider where
  projection : Projection
deriving DecidableEq, Repr

/-- A raster-overlay tile; the engine reaches its provider through
`getTileProvider()`. -/
structure RasterOverlayTile where
  tileProvider : RasterOverlayTileProvider
deriving DecidableEq, Repr

/-- Enum `RasterMappedTo3DTile::AttachmentState`. -/
inductive AttachmentState where
  | Unattached
  | TemporarilyAttached
  | Attached
deriving DecidableEq, Repr

/-- Record `RasterMappedTo3DTile`: one raster overlay tile mapped onto this geometry
tile, with its texture-coordinate channel and attachment state. -/
structure RasterMappedTo3DTile where
  rasterTile : RasterOverlayTile
  textureCoordinateID : Nat
  attachmentState : AttachmentState
deriving DecidableEq, Repr

/-- The projection of a mapping, reached in the source as
`mappedTile.getRasterTile().getTileProvider().getProjection()`. -/
def mappingProjection (m : RasterMappedTo3DTile) : Projection :=
  m.rasterTile.tileProvider.projection

/-- The decoded content record (`TileContent`), parameterized by the tile type
so that the recursive knot can be tied below.  Fields: optional model,
optional child tiles to adopt, optional improved bounding volume. -/
structure TileContentF (T : Type) where
  model : Option Model
  childTiles : Option (List T)
  updatedBoundingVolume : Option BoundingVolume

/-- All fields of a `Tile`, in the declaration order of `Tile.h` as witnessed
by the constructor initializer list at `Tile.cpp:17-35` (plus `_rasterTiles`,
which that list leaves default-constructed).  Parameterized by the tile type
for the recursive knot. -/
structure TileData (T : Type) where
  loadedTilesLinks : Nat
  pTileset : Option TilesetPtr
  pParent : Option TilePtr
  children : List T
  boundingVolume : BoundingVolume
  viewerRequestVolume : Option BoundingVolume
  geometricError : ℚ
  refine : TileRefine
  transform : Mat4
  id : TileID
  contentBoundingVolume : Option BoundingVolume
  state : LoadState
  pContentRequest : Option Request
  pContent : Option (TileContentF T)
  pRendererResources : Option RendererResources
  rasterTiles : List RasterMappedTo3DTile
  lastSelectionState : Nat

/-- A tile: the recursive knot over `TileData`. -/
inductive Tile where
  | mk (data : TileData Tile)

/-- The decoded content record of a tile. -/
abbrev TileContent := TileContentF Tile

/-- Projection out of the knot. -/
def Tile.data : Tile → TileData Tile
  | .mk d => d

@[simp] theorem Tile.data_mk (d : TileData Tile) : (Tile.mk d).data = d := rfl

@[simp] theorem Tile.mk_data (t : Tile) : Tile.mk t.data = t := by
  cases t; rfl

/-- The default constructor `Tile::Tile()` (`Tile.cpp:17-35`): state
`Unloaded`, every pointer null, empty children and raster tiles, zero
geometric error, `Replace` refinement, identity transform, empty id. -/
def Tile.init : Tile :=
  Tile.mk {
    loadedTilesLinks := 0
    pTileset := none
    pParent := none
    children := []
    boundingVolume := BoundingVolume.orientedBox 0
    viewerRequestVolume := none
    geometricError := 0
    refine := TileRefine.Replace
    transform := 1
    id := ""
    contentBoundingVolume := none
    state := LoadState.Unloaded
    pContentRequest := none
    pContent := none
    pRendererResources := none
    rasterTiles := []
    lastSelectionState := 0 }

/-- Setter `Tile::setParent` (setter declared in `Tile.h`, used at `Tile.cpp:217`). -/
def Tile.setParent (t : Tile) (p : TilePtr) : Tile :=
  Tile.mk { t.data with pParent := some p }

/-- The renderer adapter (`IPrepareRendererResources`).  Each `prepare*` call
returns an opaque handle; the values the host adapter would return are data
of the model. -/
structure PrepareRendererResourcesAdapter where
  prepareInLoadThreadResult : Option RendererResources
  prepareInMainThreadResult : Option RendererResources
deriving DecidableEq, Repr

/-- Record `TilesetExternals`, restricted to what `Tile.cpp` reads: the optional
renderer adapter.  The task processor and asset accessor appear only through
events. -/
structure TilesetExternals where
  pPrepareRendererResources : Option PrepareRendererResourcesAdapter
deriving DecidableEq, Repr

/-- Observable side effects of the engine on its collaborators, in program
order. -/
inductive Event where
  | notifyTileDoneLoading
  | cancelRequest
  | startTask
  | createContent
  | generateTexCoords (projectionID : Nat) (projection : Projection) (rectangle : Rectangle2D)
  | prepareInLoadThread
  | prepareInMainThread
  | freeRes (mainHalf : Option RendererResources) (loadHalf : Option RendererResources)
  | setStateEv (s : LoadState)
  | loadRasterInMainThread
  | attachRasterToTile
deriving DecidableEq, Repr

/-- Function `Tile::prepareToDestroy` (`Tile.cpp:85-94`): cancel any in-flight request,
then compare-and-swap `ContentLoading -> Destroying`; other states are left
untouched. -/
def Tile.prepareToDestroy (t : Tile) : Tile × List Event :=
  let evs := if t.data.pContentRequest.isSome then [Event.cancelRequest] else []
  if t.data.state = LoadState.ContentLoading then
    (Tile.mk { t.data with state := LoadState.Destroying }, evs)
  else
    (t, evs)

/-- Function `Tile::loadContent` (`Tile.cpp:130-179`).  External inputs of the call are
passed as data: `requestResult` is what `tileset.requestTileContent` returns
and `mapResult` is the vector the overlay providers fill through
`mapRasterTilesToGeometryTile`.  No-op unless the state is `Unloaded`;
otherwise set `ContentLoading`, replace the raster tiles when the bounding
volume has a region rectangle, store the request; when the request is null,
notify the tileset and go directly to `ContentLoaded`. -/
def Tile.loadContent (requestResult : Option Request)
    (mapResult : List RasterMappedTo3DTile) (t : Tile) : Tile × List Event :=
  if t.data.state ≠ LoadState.Unloaded then
    (t, [])
  else
    let d1 := { t.data with state := LoadState.ContentLoading }
    let d2 :=
      match regionRectangle d1.boundingVolume with
      | some _ => { d1 with rasterTiles := mapResult }
      | none => d1
    match requestResult with
    | some req =>
        (Tile.mk { d2 with pContentRequest := some req },
         [Event.setStateEv LoadState.ContentLoading])
    | none =>
        (Tile.mk { d2 with
            pContentRequest := none
            state := LoadState.ContentLoaded },
         [Event.setStateEv LoadState.ContentLoading,
          Event.notifyTileDoneLoading,
          Event.setStateEv LoadState.ContentLoaded])

/-- Function `Tile::unloadContent` (`Tile.cpp:181-203`).  Returns `false` without
acting while `ContentLoading`; otherwise frees the renderer handle (the
main-thread half when `ContentLoaded`, the load-thread half otherwise),
clears renderer resources, request, content and raster tiles, and resets the
state to `Unloaded`. -/
def Tile.unloadContent (externals : TilesetExternals) (t : Tile) :
    Tile × List Event × Bool :=
  if t.data.state = LoadState.ContentLoading then
    (t, [], false)
  else
    let freeEvs :=
      match externals.pPrepareRendererResources with
      | some _ =>
          if t.data.state = LoadState.ContentLoaded then
            [Event.freeRes t.data.pRendererResources none]
          else
            [Event.freeRes none t.data.pRendererResources]
      | none => []
    (Tile.mk { t.data with
        pRendererResources := none
        pContentRequest := none
        pContent := none
        rasterTiles := []
        state := LoadState.Unloaded },
     freeEvs ++ [Event.setStateEv LoadState.Unloaded], true)

/-- Outcome of the immediate part of `Tile::contentResponseReceived`. -/
inductive ResponseOutcome where
  | failedNotified
  | silentIgnore
  | taskEnqueued
deriving DecidableEq, Repr

/-- Function `Tile::contentResponseReceived`, immediate part (`Tile.cpp:256-283`):
on `Destroying` notify and fail; on a state strictly greater than
`ContentLoading` ignore the duplicate callback; on a missing response or a
status code outside `[200, 300)` notify and fail; otherwise enqueue the
decode task on the task processor. -/
def Tile.contentResponseReceived (req : Request) (t : Tile) :
    Tile × List Event × ResponseOutcome :=
  if t.data.state = LoadState.Destroying then
    (Tile.mk { t.data with state := LoadState.Failed },
     [Event.notifyTileDoneLoading, Event.setStateEv LoadState.Failed],
     ResponseOutcome.failedNotified)
  else if LoadState.code t.data.state > LoadState.code LoadState.ContentLoading then
    (t, [], ResponseOutcome.silentIgnore)
  else
    match req.response with
    | none =>
        (Tile.mk { t.data with state := LoadState.Failed },
         [Event.notifyTileDoneLoading, Event.setStateEv LoadState.Failed],
         ResponseOutcome.failedNotified)
    | some resp =>
        if resp.statusCode < 200 ∨ 300 ≤ resp.statusCode then
          (Tile.mk { t.data with state := LoadState.Failed },
           [Event.notifyTileDoneLoading, Event.setStateEv LoadState.Failed],
           ResponseOutcome.failedNotified)
        else
          (t, [Event.startTask], ResponseOutcome.taskEnqueued)

/-- Stand-in for the external `CesiumGeospatial::projectRectangleSimple`
(projection math library, out of scope per the spec); the claims never depend
on its values, only on which `(projection, rectangle)` pairs it is applied
to. -/
def projectRectangleSimple (p : Projection) (r : GlobeRectangle) : Rectangle2D :=
  (p, r)

/-- The overlay-binding loop of the decode task (`Tile.cpp:323-343`): walk
the mappings; on a projection not seen before, generate texture coordinates
for the model (recorded as an event), append the projection to the list,
assign the fresh `projectionID` and increment it; on a repeated projection,
assign the index at which `std::find` located it. -/
def overlayBindingLoop (rect : GlobeRectangle) (projections : List Projection)
    (projectionID : Nat) :
    List RasterMappedTo3DTile →
      List RasterMappedTo3DTile × List Projection × Nat × List Event
  | [] => ([], projections, projectionID, [])
  | m :: rest =>
      let projection := mappingProjection m
      if projection ∈ projections then
        let m' := { m with textureCoordinateID := projections.indexOf projection }
        let r := overlayBindingLoop rect projections projectionID rest
        (m' :: r.1, r.2.1, r.2.2.1, r.2.2.2)
      else
        let rectangle := projectRectangleSimple projection rect
        let m' := { m with textureCoordinateID := projectionID }
        let r := overlayBindingLoop rect (projections ++ [projection])
          (projectionID + 1) rest
        (m' :: r.1, r.2.1, r.2.2.1,
         Event.generateTexCoords projectionID projection rectangle :: r.2.2.2)

/-- The decode-task lambda scheduled by `contentResponseReceived`
(`Tile.cpp:283-358`).  `factoryResult` is the content record the external
`TileContentFactory::createContent` produces for this response.  The task
re-checks `Destroying` before and after decoding (in this sequential model
the state cannot change in between, so the second check repeats the first),
stores the content, and if the content has a model: binds overlays when
raster tiles are present and a region rectangle exists, then calls
`prepareInLoadThread` when an adapter is present (storing its handle) or
nulls the renderer resources otherwise.  Finally it notifies the tileset and
sets `ContentLoaded`. -/
def Tile.contentDecodeTask (externals : TilesetExternals)
    (factoryResult : Option TileContent) (t : Tile) : Tile × List Event :=
  if t.data.state = LoadState.Destroying then
    (Tile.mk { t.data with state := LoadState.Failed },
     [Event.notifyTileDoneLoading, Event.setStateEv LoadState.Failed])
  else
    let d1 := { t.data with pContent := factoryResult }
    if d1.state = LoadState.Destroying then
      (Tile.mk { d1 with state := LoadState.Failed },
       [Event.createContent, Event.notifyTileDoneLoading,
        Event.setStateEv LoadState.Failed])
    else
      match factoryResult with
      | some c =>
          match c.model with
          | some _ =>
              let bound :=
                if d1.rasterTiles ≠ [] then
                  match regionRectangle d1.boundingVolume with
                  | some rect =>
                      let r := overlayBindingLoop rect [] 0 d1.rasterTiles
                      ({ d1 with rasterTiles := r.1 }, r.2.2.2)
                  | none => (d1, [])
                else (d1, [])
              match externals.pPrepareRendererResources with
              | some adapter =>
                  (Tile.mk { bound.1 with
                      pRendererResources := adapter.prepareInLoadThreadResult
                      state := LoadState.ContentLoaded },
                   Event.createContent :: bound.2 ++
                     [Event.prepareInLoadThread, Event.notifyTileDoneLoading,
                      Event.setStateEv LoadState.ContentLoaded])
              | none =>
                  (Tile.mk { bound.1 with
                      pRendererResources := none
                      state := LoadState.ContentLoaded },
                   Event.createContent :: bound.2 ++
                     [Event.notifyTileDoneLoading,
                      Event.setStateEv LoadState.ContentLoaded])
          | none =>
              (Tile.mk { d1 with state := LoadState.ContentLoaded },
               [Event.createContent, Event.notifyTileDoneLoading,
                Event.setStateEv LoadState.ContentLoaded])
      | none =>
          (Tile.mk { d1 with state := LoadState.ContentLoaded },
           [Event.createContent, Event.notifyTileDoneLoading,
            Event.setStateEv LoadState.ContentLoaded])

/-- Modelled from the spec: `RasterMappedTo3DTile::attachToTile` and
`RasterOverlayTile::loadInMainThread` live outside the sources; section 4.E
says `update` asks each still-unattached mapping to finish main-thread
loading and marks it attached.  This walks the mappings, attaching every
`Unattached` one. -/
def attachUnattached :
    List RasterMappedTo3DTile → List RasterMappedTo3DTile × List Event
  | [] => ([], [])
  | m :: rest =>
      let r := attachUnattached rest
      if m.attachmentState = AttachmentState.Unattached then
        ({ m with attachmentState := AttachmentState.Attached } :: r.1,
         Event.loadRasterInMainThread :: Event.attachRasterToTile :: r.2)
      else
        (m :: r.1, r.2)

/-- Function `Tile::update` (`Tile.cpp:205-250`).  `self` is the address of the tile
(`this`), used as the parent back-reference for adopted children.  In state
`ContentLoaded`: run `prepareInMainThread` when an adapter is present and
store its handle; when content is present, adopt `content.childTiles` (only
when the tile has no children yet; the move leaves the engaged optional
holding an empty vector), raise the geometric error to the sentinel when the
content has no model, and apply an updated bounding volume; then release the
request and set `Done`.  In state `Done` (including immediately after the
first branch ran): attach every still-unattached raster mapping. -/
def Tile.update (externals : TilesetExternals) (self : TilePtr) (t : Tile) :
    Tile × List Event :=
  let step1 :=
    if t.data.state = LoadState.ContentLoaded then
      let d1 :=
        match externals.pPrepareRendererResources with
        | some adapter =>
            ({ t.data with
                pRendererResources := adapter.prepareInMainThreadResult },
             [Event.prepareInMainThread])
        | none => (t.data, [])
      let d2 :=
        match d1.1.pContent with
        | some c =>
            let dChildren :=
              match c.childTiles with
              | some kids =>
                  if d1.1.children.length = 0 then
                    { d1.1 with
                        children := kids.map (fun k => Tile.setParent k self)
                        pContent := some { c with childTiles := some [] } }
                  else d1.1
              | none => d1.1
            let dModel :=
              if c.model = none then
                { dChildren with geometricError := (999999999 : ℚ) }
              else dChildren
            match c.updatedBoundingVolume with
            | some bv => { dModel with boundingVolume := bv }
            | none => dModel
        | none => d1.1
      ({ d2 with
          pContentRequest := none
          state := LoadState.Done },
       d1.2 ++ [Event.setStateEv LoadState.Done])
    else (t.data, [])
  if step1.1.state = LoadState.Done then
    let r := attachUnattached step1.1.rasterTiles
    (Tile.mk { step1.1 with rasterTiles := r.1 }, step1.2 ++ r.2)
  else
    (Tile.mk step1.1, step1.2)

/-- The move constructor `Tile::Tile(Tile&&)` (`Tile.cpp:42-60`).  Returns
(destination, moved-from source).  The initializer list default-constructs
`_loadedTilesLinks`, copies the back-references, geometry, state (through an
atomic load) and the raw renderer-resource pointer, and moves `_children`,
`_id`, `_pContentRequest` and `_pContent`; it never mentions `_rasterTiles`,
so the destination's raster tiles are default-constructed (empty) and the
source keeps its own.  Moved-from owning fields are left empty (guaranteed
for `std::unique_ptr`; the buffer steal empties the vector and string). -/
def Tile.moveConstruct (rhs : Tile) : Tile × Tile :=
  (Tile.mk {
      loadedTilesLinks := 0
      pTileset := rhs.data.pTileset
      pParent := rhs.data.pParent
      children := rhs.data.children
      boundingVolume := rhs.data.boundingVolume
      viewerRequestVolume := rhs.data.viewerRequestVolume
      geometricError := rhs.data.geometricError
      refine := rhs.data.refine
      transform := rhs.data.transform
      id := rhs.data.id
      contentBoundingVolume := rhs.data.contentBoundingVolume
      state := rhs.data.state
      pContentRequest := rhs.data.pContentRequest
      pContent := rhs.data.pContent
      pRendererResources := rhs.data.pRendererResources
      rasterTiles := []
      lastSelectionState := rhs.data.lastSelectionState },
   Tile.mk { rhs.data with
      children := []
      id := ""
      pContentRequest := none
      pContent := none })

/-- The move assignment `Tile::operator=(Tile&&)` (`Tile.cpp:62-83`) for
distinct objects (the `this != &rhs` guard).  Returns (destination,
moved-from source).  Every field of the initializer list is assigned over —
`_loadedTilesLinks` moved, back-references and state copied, owning fields
moved — except `_rasterTiles`, which is never mentioned: the destination
keeps its own raster tiles and so does the source. -/
def Tile.moveAssign (dst rhs : Tile) : Tile × Tile :=
  (Tile.mk {
      loadedTilesLinks := rhs.data.loadedTilesLinks
      pTileset := rhs.data.pTileset
      pParent := rhs.data.pParent
      children := rhs.data.children
      boundingVolume := rhs.data.boundingVolume
      viewerRequestVolume := rhs.data.viewerRequestVolume
      geometricError := rhs.data.geometricError
      refine := rhs.data.refine
      transform := rhs.data.transform
      id := rhs.data.id
      contentBoundingVolume := rhs.data.contentBoundingVolume
      state := rhs.data.state
      pContentRequest := rhs.data.pContentRequest
      pContent := rhs.data.pContent
      pRendererResources := rhs.data.pRendererResources
      rasterTiles := dst.data.rasterTiles
      lastSelectionState := rhs.data.lastSelectionState },
   Tile.mk { rhs.data with
      loadedTilesLinks := 0
      children := []
      id := ""
      pContentRequest := none
      pContent := none })

/-- The projections for which texture coordinates were generated, in call
order, read off an event trace. -/
def genProjs (evs : List Event) : List Projection :=
  evs.filterMap fun ev =>
    match ev with
    | Event.generateTexCoords _ p _ => some p
    | _ => none

@[simp] theorem mappingProjection_setID (m : RasterMappedTo3DTile) (n : Nat) :
    mappingProjection { m with textureCoordinateID := n } = mappingProjection m := rfl

@[simp] theorem genProjs_nil : genProjs [] = [] := rfl

@[simp] theorem genProjs_cons (ev : Event) (evs : List Event) :
    genProjs (ev :: evs) =
      (match ev with
       | Event.generateTexCoords _ p _ => some p
       | _ => none).toList ++ genProjs evs := by
  cases ev <;> simp [genProjs, List.filterMap_cons]

@[simp] theorem genProjs_append (a b : List Event) :
    genProjs (a ++ b) = genProjs a ++ genProjs b := by
  simp [genProjs, List.filterMap_append]

/-- The overlay-binding loop only ever appends to its projection list. -/
theorem overlayLoop_projections_extend (rect : GlobeRectangle) :
    ∀ (ms : List RasterMappedTo3DTile) (ps : List Projection) (pid : Nat),
      ∃ qs, (overlayBindingLoop rect ps pid ms).2.1 = ps ++ qs := by
  intro ms
  induction ms with
  | nil => intro ps pid; exact ⟨[], by simp [overlayBindingLoop]⟩
  | cons m rest ih =>
      intro ps pid
      by_cases hmem : mappingProjection m ∈ ps
      · obtain ⟨qs, hqs⟩ := ih ps pid
        exact ⟨qs, by simp [overlayBindingLoop, hmem, hqs]⟩
      · obtain ⟨qs, hqs⟩ := ih (ps ++ [mappingProjection m]) (pid + 1)
        refine ⟨mappingProjection m :: qs, ?_⟩
        simp [overlayBindingLoop, hmem, hqs]

/-- Elementwise characterization of the assigned texture-coordinate IDs:
every output mapping's ID is the index of its projection in the final
projection list. -/
theorem overlayLoop_id_eq_indexOf (rect : GlobeRectangle) :
    ∀ (ms : List RasterMappedTo3DTile) (ps : List Projection) (pid : Nat),
      pid = ps.length →
      ∀ m' ∈ (overlayBindingLoop rect ps pid ms).1,
        m'.textureCoordinateID =
          ((overlayBindingLoop rect ps pid ms).2.1).indexOf (mappingProjection m') := by
  intro ms
  induction ms with
  | nil => intro ps pid _ m' hm'; simp [overlayBindingLoop] at hm'
  | cons m rest ih =>
      intro ps pid hpid m' hm'
      by_cases hmem : mappingProjection m ∈ ps
      · simp only [overlayBindingLoop, if_pos hmem] at hm' ⊢
        obtain ⟨qs, hqs⟩ := overlayLoop_projections_extend rect rest ps pid
        rcases List.mem_cons.mp hm' with h | h
        · subst h
          simp [hqs, List.indexOf_append_of_mem hmem]
        · rw [ih ps pid hpid m' h]
      · simp only [overlayBindingLoop, if_neg hmem] at hm' ⊢
        obtain ⟨qs, hqs⟩ :=
          overlayLoop_projections_extend rect rest (ps ++ [mappingProjection m]) (pid + 1)
        have hlen : pid + 1 = (ps ++ [mappingProjection m]).length := by
          simp [hpid]
        rcases List.mem_cons.mp hm' with h | h
        · subst h
          rw [hqs, List.append_assoc]
          simp only [mappingProjection_setID]
          rw [List.indexOf_append_of_not_mem hmem]
          simp [hpid, List.indexOf_cons_self]
        · rw [ih (ps ++ [mappingProjection m]) (pid + 1) hlen m' h]

/-- The loop preserves the projections of the mappings (only the
texture-coordinate IDs change). -/
theorem overlayLoop_map_projection (rect : GlobeRectangle) :
    ∀ (ms : List RasterMappedTo3DTile) (ps : List Projection) (pid : Nat),
      ((overlayBindingLoop rect ps pid ms).1).map mappingProjection =
        ms.map mappingProjection := by
  intro ms
  induction ms with
  | nil => intro ps pid; simp [overlayBindingLoop]
  | cons m rest ih =>
      intro ps pid
      by_cases hmem : mappingProjection m ∈ ps <;>
        simp [overlayBindingLoop, hmem, ih]

/-- Membership in the final projection list: exactly the initial projections
plus the projections occurring among the mappings. -/
theorem overlayLoop_mem_projections (rect : GlobeRectangle) :
    ∀ (ms : List RasterMappedTo3DTile) (ps : List Projection) (pid : Nat)
      (q : Projection),
      q ∈ (overlayBindingLoop rect ps pid ms).2.1 ↔
        q ∈ ps ∨ q ∈ ms.map mappingProjection := by
  intro ms
  induction ms with
  | nil => intro ps pid q; simp [overlayBindingLoop]
  | cons m rest ih =>
      intro ps pid q
      by_cases hmem : mappingProjection m ∈ ps
      · simp only [overlayBindingLoop, if_pos hmem]
        rw [ih]
        simp only [List.map_cons, List.mem_cons]
        constructor
        · rintro (h | h)
          · exact Or.inl h
          · exact Or.inr (Or.inr h)
        · rintro (h | h | h)
          · exact Or.inl h
          · exact Or.inl (h ▸ hmem)
          · exact Or.inr h
      · simp only [overlayBindingLoop, if_neg hmem]
        rw [ih]
        simp only [List.mem_append, List.mem_singleton, List.map_cons, List.mem_cons]
        tauto

/-- The final projection list stays duplicate-free. -/
theorem overlayLoop_nodup (rect : GlobeRectangle) :
    ∀ (ms : List RasterMappedTo3DTile) (ps : List Projection) (pid : Nat),
      ps.Nodup → ((overlayBindingLoop rect ps pid ms).2.1).Nodup := by
  intro ms
  induction ms with
  | nil => intro ps pid h; simpa [overlayBindingLoop] using h
  | cons m rest ih =>
      intro ps pid h
      by_cases hmem : mappingProjection m ∈ ps
      · simp only [overlayBindingLoop, if_pos hmem]
        exact ih ps pid h
      · simp only [overlayBindingLoop, if_neg hmem]
        refine ih _ _ ?_
        refine h.append (List.nodup_singleton _) ?_
        intro a ha hb
        rw [List.mem_singleton] at hb
        exact hmem (hb ▸ ha)

/-- The generated-texture-coordinate events record exactly the projections
appended to the projection list, in order. -/
theorem overlayLoop_genProjs (rect : GlobeRectangle) :
    ∀ (ms : List RasterMappedTo3DTile) (ps : List Projection) (pid : Nat),
      genProjs (overlayBindingLoop rect ps pid ms).2.2.2 =
        ((overlayBindingLoop rect ps pid ms).2.1).drop ps.length := by
  intro ms
  induction ms with
  | nil => intro ps pid; simp [overlayBindingLoop]
  | cons m rest ih =>
      intro ps pid
      by_cases hmem : mappingProjection m ∈ ps
      · simp only [overlayBindingLoop, if_pos hmem]
        exact ih ps pid
      · obtain ⟨qs, hqs⟩ :=
          overlayLoop_projections_extend rect rest (ps ++ [mappingProjection m]) (pid + 1)
        have hE : genProjs
            (overlayBindingLoop rect (ps ++ [mappingProjection m]) (pid + 1) rest).2.2.2 =
            qs := by
          rw [ih (ps ++ [mappingProjection m]) (pid + 1), hqs]
          exact List.drop_left _ _
        simp only [overlayBindingLoop, if_neg hmem, genProjs_cons, hE, hqs]
        rw [List.append_assoc, List.drop_left]
        simp

/-- In the overlay-binding configuration (content with a model, raster tiles
present, region rectangle available, not destroying), the decode task's
raster tiles and generated-texture-coordinate events are those of the
overlay-binding loop started with an empty projection list and id 0. -/
theorem contentDecodeTask_overlay (ext : TilesetExternals) (c : TileContent)
    (m : Model) (t : Tile) (rect : GlobeRectangle)
    (hstate : t.data.state ≠ LoadState.Destroying)
    (hm : c.model = some m)
    (hrt : t.data.rasterTiles ≠ [])
    (hrect : regionRectangle t.data.boundingVolume = some rect) :
    (Tile.contentDecodeTask ext (some c) t).1.data.rasterTiles =
      (overlayBindingLoop rect [] 0 t.data.rasterTiles).1 ∧
    genProjs (Tile.contentDecodeTask ext (some c) t).2 =
      genProjs (overlayBindingLoop rect [] 0 t.data.rasterTiles).2.2.2 := by
  cases hpp : ext.pPrepareRendererResources <;>
    simp [Tile.contentDecodeTask, hstate, hm, hrt, hrect, hpp]

/-- Claim C2: in the overlay-binding step of the decode task (model present,
raster tiles non-empty, region rectangle present), any two mappings sharing a
projection receive the same texture-coordinate ID, and texture coordinates
are generated exactly once per distinct projection: the generated projections
are duplicate-free and are exactly the projections occurring among the
mappings. -/
theorem claim_C2 (ext : TilesetExternals) (c : TileContent) (m : Model)
    (t : Tile) (rect : GlobeRectangle)
    (hstate : t.data.state ≠ LoadState.Destroying)
    (hm : c.model = some m)
    (hrt : t.data.rasterTiles ≠ [])
    (hrect : regionRectangle t.data.boundingVolume = some rect) :
    ((Tile.contentDecodeTask ext (some c) t).1.data.rasterTiles).Pairwise
      (fun a b => mappingProjection a = mappingProjection b →
        a.textureCoordinateID = b.textureCoordinateID) ∧
    (genProjs (Tile.contentDecodeTask ext (some c) t).2).Nodup ∧
    (∀ p : Projection,
      p ∈ genProjs (Tile.contentDecodeTask ext (some c) t).2 ↔
        p ∈ t.data.rasterTiles.map mappingProjection) := by
  obtain ⟨h1, h2⟩ := contentDecodeTask_overlay ext c m t rect hstate hm hrt hrect
  rw [h1, h2]
  refine ⟨?_, ?_, ?_⟩
  · apply List.pairwise_of_forall_mem_list
    intro a ha b hb hab
    rw [overlayLoop_id_eq_indexOf rect t.data.rasterTiles [] 0 rfl a ha,
      overlayLoop_id_eq_indexOf rect t.data.rasterTiles [] 0 rfl b hb, hab]
  · rw [overlayLoop_genProjs]
    simpa using overlayLoop_nodup rect t.data.rasterTiles [] 0 List.nodup_nil
  · intro p
    rw [overlayLoop_genProjs]
    simpa using overlayLoop_mem_projections rect t.data.rasterTiles [] 0 p

/-- Concrete tile for the C2 witness: projections 1, 2, 1 in map order
(spec scenario 5). -/
def c2Tile : Tile :=
  Tile.mk { Tile.init.data with
    state := LoadState.ContentLoading
    boundingVolume := BoundingVolume.region 7 0 1
    pContentRequest := some { url := "tile.b3dm", response := none }
    rasterTiles :=
      [{ rasterTile := { tileProvider := { projection := 1 } },
         textureCoordinateID := 0, attachmentState := AttachmentState.Unattached },
       { rasterTile := { tileProvider := { projection := 2 } },
         textureCoordinateID := 0, attachmentState := AttachmentState.Unattached },
       { rasterTile := { tileProvider := { projection := 1 } },
         textureCoordinateID := 0, attachmentState := AttachmentState.Unattached }] }

/-- Content with a model for the C2 witness. -/
def c2Content : TileContent :=
  { model := some 0, childTiles := none, updatedBoundingVolume := none }

theorem claim_C2_witness :
    ((Tile.contentDecodeTask ⟨none⟩ (some c2Content) c2Tile).1.data.rasterTiles).Pairwise
      (fun a b => mappingProjection a = mappingProjection b →
        a.textureCoordinateID = b.textureCoordinateID) ∧
    (genProjs (Tile.contentDecodeTask ⟨none⟩ (some c2Content) c2Tile).2).Nodup ∧
    (∀ p : Projection,
      p ∈ genProjs (Tile.contentDecodeTask ⟨none⟩ (some c2Content) c2Tile).2 ↔
        p ∈ c2Tile.data.rasterTiles.map mappingProjection) :=
  claim_C2 ⟨none⟩ c2Content 0 c2Tile 7 (by decide) rfl (by decide) rfl

/-- Tiles reachable through the engine's own operations, starting from the
default-constructed tile.  External inputs (the request the tileset returns,
overlay mappings, responses, factory results, adapter results) are
universally quantified in the step constructors.  The response step fires
only for the request the tile holds (the continuation is bound to it), and
the decode step only while the tile still holds a request (the task body
dereferences `_pContentRequest`). -/
inductive Reachable : Tile → Prop where
  | init : Reachable Tile.init
  | load (req : Option Request) (mp : List RasterMappedTo3DTile) {t : Tile} :
      Reachable t → Reachable (Tile.loadContent req mp t).1
  | destroy {t : Tile} : Reachable t → Reachable (Tile.prepareToDestroy t).1
  | response (req : Request) {t : Tile} : Reachable t →
      t.data.pContentRequest = some req →
      Reachable (Tile.contentResponseReceived req t).1
  | decode (ext : TilesetExternals) (fac : Option TileContent) {t : Tile} :
      Reachable t → t.data.pContentRequest.isSome →
      Reachable (Tile.contentDecodeTask ext fac t).1
  | updateStep (ext : TilesetExternals) (self : TilePtr) {t : Tile} :
      Reachable t → Reachable (Tile.update ext self t).1
  | unload (ext : TilesetExternals) {t : Tile} :
      Reachable t → Reachable (Tile.unloadContent ext t).1

/-- The request/state relationship the code actually maintains: the request
is present in `ContentLoading` and `Destroying`, and absent in `Unloaded`
and `Done`.  (In `ContentLoaded` and `Failed` it may remain present: the
failure paths and the decode task never release it; only `update` and
`unloadContent` do.) -/
def requestStateInv (t : Tile) : Prop :=
  ((t.data.state = LoadState.ContentLoading ∨ t.data.state = LoadState.Destroying) →
    t.data.pContentRequest.isSome) ∧
  ((t.data.state = LoadState.Unloaded ∨ t.data.state = LoadState.Done) →
    t.data.pContentRequest = none)

theorem requestStateInv_loadContent (req : Option Request)
    (mp : List RasterMappedTo3DTile) (t : Tile) (h : requestStateInv t) :
    requestStateInv (Tile.loadContent req mp t).1 := by
  unfold requestStateInv at *
  by_cases hu : t.data.state = LoadState.Unloaded
  · cases hrr : regionRectangle t.data.boundingVolume <;> cases req <;>
      simp [Tile.loadContent, hu, hrr]
  · simpa [Tile.loadContent, hu] using h

theorem requestStateInv_prepareToDestroy (t : Tile) (h : requestStateInv t) :
    requestStateInv (Tile.prepareToDestroy t).1 := by
  unfold requestStateInv at *
  by_cases hcl : t.data.state = LoadState.ContentLoading
  · refine ⟨fun _ => ?_, ?_⟩ <;> simp [Tile.prepareToDestroy, hcl]
    exact h.1 (Or.inl hcl)
  · simpa [Tile.prepareToDestroy, hcl] using h

theorem requestStateInv_response (req : Request) (t : Tile)
    (h : requestStateInv t) :
    requestStateInv (Tile.contentResponseReceived req t).1 := by
  unfold requestStateInv at *
  by_cases hd : t.data.state = LoadState.Destroying
  · simp [Tile.contentResponseReceived, hd]
  · by_cases hgt :
        LoadState.code t.data.state > LoadState.code LoadState.ContentLoading
    · simpa [Tile.contentResponseReceived, hd, hgt] using h
    · cases hresp : req.response with
      | none => simp [Tile.contentResponseReceived, hd, hgt, hresp]
      | some resp =>
          by_cases hbad : resp.statusCode < 200 ∨ 300 ≤ resp.statusCode
          · simp [Tile.contentResponseReceived, hd, hgt, hresp, hbad]
          · simpa [Tile.contentResponseReceived, hd, hgt, hresp, hbad] using h

/-- Every exit of the decode task leaves the tile `Failed` or
`ContentLoaded`. -/
theorem contentDecodeTask_state (ext : TilesetExternals)
    (fac : Option TileContent) (t : Tile) :
    (Tile.contentDecodeTask ext fac t).1.data.state = LoadState.Failed ∨
    (Tile.contentDecodeTask ext fac t).1.data.state = LoadState.ContentLoaded := by
  by_cases hd : t.data.state = LoadState.Destroying
  · simp [Tile.contentDecodeTask, hd]
  · cases fac with
    | none => simp [Tile.contentDecodeTask, hd]
    | some c =>
        cases hm : c.model with
        | none => simp [Tile.contentDecodeTask, hd, hm]
        | some mv =>
            by_cases hrt : t.data.rasterTiles = []
            · cases hpp : ext.pPrepareRendererResources <;>
                simp [Tile.contentDecodeTask, hd, hm, hrt, hpp]
            · cases hrr : regionRectangle t.data.boundingVolume <;>
                cases hpp : ext.pPrepareRendererResources <;>
                simp [Tile.contentDecodeTask, hd, hm, hrt, hrr, hpp]

/-- The decode task never touches the request it was spawned for. -/
theorem contentDecodeTask_request (ext : TilesetExternals)
    (fac : Option TileContent) (t : Tile) :
    (Tile.contentDecodeTask ext fac t).1.data.pContentRequest =
      t.data.pContentRequest := by
  by_cases hd : t.data.state = LoadState.Destroying
  · simp [Tile.contentDecodeTask, hd]
  · cases fac with
    | none => simp [Tile.contentDecodeTask, hd]
    | some c =>
        cases hm : c.model with
        | none => simp [Tile.contentDecodeTask, hd, hm]
        | some mv =>
            by_cases hrt : t.data.rasterTiles = []
            · cases hpp : ext.pPrepareRendererResources <;>
                simp [Tile.contentDecodeTask, hd, hm, hrt, hpp]
            · cases hrr : regionRectangle t.data.boundingVolume <;>
                cases hpp : ext.pPrepareRendererResources <;>
                simp [Tile.contentDecodeTask, hd, hm, hrt, hrr, hpp]

theorem requestStateInv_decode (ext : TilesetExternals)
    (fac : Option TileContent) (t : Tile) :
    requestStateInv (Tile.contentDecodeTask ext fac t).1 := by
  unfold requestStateInv
  rcases contentDecodeTask_state ext fac t with hs | hs <;>
    simp [hs]

theorem requestStateInv_update (ext : TilesetExternals) (self : TilePtr)
    (t : Tile) (h : requestStateInv t) :
    requestStateInv (Tile.update ext self t).1 := by
  unfold requestStateInv at *
  by_cases hcl : t.data.state = LoadState.ContentLoaded
  · cases hpp : ext.pPrepareRendererResources <;>
      cases hc : t.data.pContent with
    | none => simp [Tile.update, hcl, hpp, hc]
    | some c =>
        cases hkids : c.childTiles <;> cases hbv : c.updatedBoundingVolume <;>
          by_cases hm : c.model = none <;>
          by_cases hch : t.data.children.length = 0 <;>
          simp [Tile.update, hcl, hpp, hc, hkids, hbv, hm, hch]
  · by_cases hdone : t.data.state = LoadState.Done
    · have hreq := h.2 (Or.inr hdone)
      simp [Tile.update, hcl, hdone, hreq]
    · simpa [Tile.update, hcl, hdone] using h

theorem requestStateInv_unload (ext : TilesetExternals) (t : Tile)
    (h : requestStateInv t) :
    requestStateInv (Tile.unloadContent ext t).1 := by
  unfold requestStateInv at *
  by_cases hcl : t.data.state = LoadState.ContentLoading
  · simpa [Tile.unloadContent, hcl] using h
  · simp [Tile.unloadContent, hcl]

/-- Claim C1 (amended): for every reachable tile, the request is non-null
whenever the state is `ContentLoading` or `Destroying`, and null whenever
the state is `Unloaded` or `Done`; in `ContentLoaded` and `Failed` the
request may remain held (released only by `update` or `unloadContent`). -/
theorem claim_C1_amended (t : Tile) (h : Reachable t) : requestStateInv t := by
  induction h with
  | init =>
      refine ⟨fun hc => ?_, fun _ => rfl⟩
      rcases hc with hc | hc <;> exact absurd hc (by decide)
  | load req mp _ ih => exact requestStateInv_loadContent req mp _ ih
  | destroy _ ih => exact requestStateInv_prepareToDestroy _ ih
  | response req _ _ ih => exact requestStateInv_response req _ ih
  | decode ext fac _ _ _ => exact requestStateInv_decode ext fac _
  | updateStep ext self _ ih => exact requestStateInv_update ext self _ ih
  | unload ext _ ih => exact requestStateInv_unload ext _ ih

theorem claim_C1_amended_witness : requestStateInv Tile.init :=
  claim_C1_amended Tile.init Reachable.init

/-- The request whose response is a 404 failure, for the C1 counterexample. -/
def c1Request : Request :=
  { url := "tile.b3dm"
    response := some { statusCode := 404, contentType := "", data := [] } }

/-- A reachable tile in state `Failed` that still holds its content request:
load a fresh tile, then let the bound continuation observe the 404. -/
def c1FailedTile : Tile :=
  (Tile.contentResponseReceived c1Request
    (Tile.loadContent (some c1Request) [] Tile.init).1).1

/-- Claim C1 as stated is false: `c1FailedTile` is reachable, its state is
`Failed` (neither `ContentLoading` nor `Destroying`), yet its
`contentRequest` is non-null — the failure path never releases the
request. -/
theorem claim_C1_counterexample :
    Reachable c1FailedTile ∧
    c1FailedTile.data.state = LoadState.Failed ∧
    c1FailedTile.data.pContentRequest.isSome ∧
    ¬ (∀ t : Tile, Reachable t →
        (t.data.pContentRequest.isSome ↔
          (t.data.state = LoadState.ContentLoading ∨
           t.data.state = LoadState.Destroying))) := by
  have hreach : Reachable c1FailedTile := by
    apply Reachable.response c1Request
    · exact Reachable.load (some c1Request) [] Reachable.init
    · decide
  refine ⟨hreach, by decide, by decide, fun hclaim => ?_⟩
  have h := (hclaim c1FailedTile hreach).mp (by decide)
  have hst : c1FailedTile.data.state = LoadState.Failed := by decide
  rcases h with h | h <;> rw [hst] at h <;> cases h

/-- Claim C3: `unloadContent` returns `false` and changes nothing when the
state is `ContentLoading`; for every other state it returns `true`, and on a
`true` return content, request, renderer resources and raster tiles are all
empty and the state is `Unloaded`. -/
theorem claim_C3 (ext : TilesetExternals) (t : Tile) :
    (t.data.state = LoadState.ContentLoading →
      Tile.unloadContent ext t = (t, [], false)) ∧
    (t.data.state ≠ LoadState.ContentLoading →
      (Tile.unloadContent ext t).2.2 = true ∧
      (Tile.unloadContent ext t).1.data.pContent = none ∧
      (Tile.unloadContent ext t).1.data.pContentRequest = none ∧
      (Tile.unloadContent ext t).1.data.pRendererResources = none ∧
      (Tile.unloadContent ext t).1.data.rasterTiles = [] ∧
      (Tile.unloadContent ext t).1.data.state = LoadState.Unloaded) := by
  constructor
  · intro h
    simp [Tile.unloadContent, h]
  · intro h
    cases hpp : ext.pPrepareRendererResources <;>
      by_cases hcl : t.data.state = LoadState.ContentLoaded <;>
      simp [Tile.unloadContent, h, hpp, hcl]

/-- A tile stuck mid-load, for the C3 witness. -/
def c3LoadingTile : Tile :=
  Tile.mk { Tile.init.data with
    state := LoadState.ContentLoading
    pContentRequest := some { url := "u", response := none } }

/-- A fully loaded tile with content and renderer resources, for the C3
witness. -/
def c3Content : TileContent :=
  { model := some 1, childTiles := none, updatedBoundingVolume := none }

def c3DoneTile : Tile :=
  Tile.mk { Tile.init.data with
    state := LoadState.Done
    pContent := some c3Content
    pRendererResources := some 5
    rasterTiles :=
      [{ rasterTile := { tileProvider := { projection := 3 } },
         textureCoordinateID := 0, attachmentState := AttachmentState.Attached }] }

theorem claim_C3_witness :
    Tile.unloadContent ⟨some ⟨none, none⟩⟩ c3LoadingTile =
      (c3LoadingTile, [], false) ∧
    ((Tile.unloadContent ⟨some ⟨none, none⟩⟩ c3DoneTile).2.2 = true ∧
      (Tile.unloadContent ⟨some ⟨none, none⟩⟩ c3DoneTile).1.data.pContent = none ∧
      (Tile.unloadContent ⟨some ⟨none, none⟩⟩ c3DoneTile).1.data.pContentRequest = none ∧
      (Tile.unloadContent ⟨some ⟨none, none⟩⟩ c3DoneTile).1.data.pRendererResources = none ∧
      (Tile.unloadContent ⟨some ⟨none, none⟩⟩ c3DoneTile).1.data.rasterTiles = [] ∧
      (Tile.unloadContent ⟨some ⟨none, none⟩⟩ c3DoneTile).1.data.state =
        LoadState.Unloaded) :=
  ⟨(claim_C3 ⟨some ⟨none, none⟩⟩ c3LoadingTile).1 rfl,
   (claim_C3 ⟨some ⟨none, none⟩⟩ c3DoneTile).2 (by decide)⟩

/-- Claim C4: `contentResponseReceived` — on `Destroying`, notify and fail;
otherwise on a state above `ContentLoading`, silently change nothing;
otherwise on an absent response or a status outside `[200, 300)`, notify and
fail; otherwise enqueue the decode task. -/
theorem claim_C4 (req : Request) (t : Tile) :
    (t.data.state = LoadState.Destroying →
      (Tile.contentResponseReceived req t).1.data.state = LoadState.Failed ∧
      Event.notifyTileDoneLoading ∈ (Tile.contentResponseReceived req t).2.1 ∧
      (Tile.contentResponseReceived req t).2.2 = ResponseOutcome.failedNotified) ∧
    (t.data.state ≠ LoadState.Destroying →
      LoadState.code t.data.state > LoadState.code LoadState.ContentLoading →
      Tile.contentResponseReceived req t = (t, [], ResponseOutcome.silentIgnore)) ∧
    (t.data.state ≠ LoadState.Destroying →
      ¬ LoadState.code t.data.state > LoadState.code LoadState.ContentLoading →
      (req.response = none ∨
        ∃ resp, req.response = some resp ∧
          (resp.statusCode < 200 ∨ 300 ≤ resp.statusCode)) →
      (Tile.contentResponseReceived req t).1.data.state = LoadState.Failed ∧
      Event.notifyTileDoneLoading ∈ (Tile.contentResponseReceived req t).2.1 ∧
      (Tile.contentResponseReceived req t).2.2 = ResponseOutcome.failedNotified) ∧
    (t.data.state ≠ LoadState.Destroying →
      ¬ LoadState.code t.data.state > LoadState.code LoadState.ContentLoading →
      ∀ resp, req.response = some resp →
        200 ≤ resp.statusCode → resp.statusCode < 300 →
        Tile.contentResponseReceived req t =
          (t, [Event.startTask], ResponseOutcome.taskEnqueued)) := by
  refine ⟨fun hd => ?_, fun hd hgt => ?_, fun hd hgt hbad => ?_, fun hd hgt resp hresp h2 h3 => ?_⟩
  · simp [Tile.contentResponseReceived, hd]
  · simp [Tile.contentResponseReceived, hd, hgt]
  · rcases hbad with hnone | ⟨resp, hresp, hout⟩
    · simp [Tile.contentResponseReceived, hd, hgt, hnone]
    · simp [Tile.contentResponseReceived, hd, hgt, hresp, hout]
  · have hok : ¬ (resp.statusCode < 200 ∨ 300 ≤ resp.statusCode) := by omega
    simp [Tile.contentResponseReceived, hd, hgt, hresp, hok]

/-- A destroying tile holding a request, for the C4 witness. -/
def c4DestroyingTile : Tile :=
  Tile.mk { Tile.init.data with
    state := LoadState.Destroying
    pContentRequest := some c1Request }

/-- A loading tile, for the C4 witness. -/
def c4LoadingTile : Tile :=
  Tile.mk { Tile.init.data with
    state := LoadState.ContentLoading
    pContentRequest := some c1Request }

/-- A request with a 200 response, for the C4 witness. -/
def c4OkRequest : Request :=
  { url := "tile.b3dm"
    response := some { statusCode := 200, contentType := "model", data := [1] } }

theorem claim_C4_witness :
    ((Tile.contentResponseReceived c4OkRequest c4DestroyingTile).1.data.state =
        LoadState.Failed ∧
      Event.notifyTileDoneLoading ∈
        (Tile.contentResponseReceived c4OkRequest c4DestroyingTile).2.1 ∧
      (Tile.contentResponseReceived c4OkRequest c4DestroyingTile).2.2 =
        ResponseOutcome.failedNotified) ∧
    (Tile.contentResponseReceived c4OkRequest c3DoneTile =
      (c3DoneTile, [], ResponseOutcome.silentIgnore)) ∧
    ((Tile.contentResponseReceived c1Request c4LoadingTile).1.data.state =
        LoadState.Failed ∧
      Event.notifyTileDoneLoading ∈
        (Tile.contentResponseReceived c1Request c4LoadingTile).2.1 ∧
      (Tile.contentResponseReceived c1Request c4LoadingTile).2.2 =
        ResponseOutcome.failedNotified) ∧
    (Tile.contentResponseReceived c4OkRequest c4LoadingTile =
      (c4LoadingTile, [Event.startTask], ResponseOutcome.taskEnqueued)) :=
  ⟨(claim_C4 c4OkRequest c4DestroyingTile).1 rfl,
   (claim_C4 c4OkRequest c3DoneTile).2.1 (by decide) (by decide),
   (claim_C4 c1Request c4LoadingTile).2.2.1 (by decide) (by decide)
     (Or.inr ⟨{ statusCode := 404, contentType := "", data := [] }, rfl, by decide⟩),
   (claim_C4 c4OkRequest c4LoadingTile).2.2.2 (by decide) (by decide)
     { statusCode := 200, contentType := "model", data := [1] } rfl
     (by decide) (by decide)⟩

/-- Claim C5: `update` on a `ContentLoaded` tile whose content has no model
raises the geometric error to the sentinel, releases the request, sets the
state to `Done`, and applies an updated bounding volume when present. -/
theorem claim_C5 (ext : TilesetExternals) (self : TilePtr) (t : Tile)
    (c : TileContent)
    (hst : t.data.state = LoadState.ContentLoaded)
    (hc : t.data.pContent = some c)
    (hm : c.model = none) :
    (Tile.update ext self t).1.data.geometricError = (999999999 : ℚ) ∧
    (Tile.update ext self t).1.data.pContentRequest = none ∧
    (Tile.update ext self t).1.data.state = LoadState.Done ∧
    (∀ bv, c.updatedBoundingVolume = some bv →
      (Tile.update ext self t).1.data.boundingVolume = bv) := by
  cases hpp : ext.pPrepareRendererResources <;>
    cases hkids : c.childTiles <;>
    cases hbv : c.updatedBoundingVolume <;>
    by_cases hch : t.data.children.length = 0 <;>
    simp [Tile.update, hst, hc, hm, hpp, hkids, hbv, hch]

/-- A modelless content record with an updated bounding volume, for the C5
witness. -/
def c5Content : TileContent :=
  { model := none
    childTiles := none
    updatedBoundingVolume := some (BoundingVolume.region 9 0 2) }

/-- A `ContentLoaded` tile whose decoded content has no model but an updated
bounding volume, for the C5 witness. -/
def c5Tile : Tile :=
  Tile.mk { Tile.init.data with
    state := LoadState.ContentLoaded
    pContentRequest := some c1Request
    pContent := some c5Content }

theorem claim_C5_witness :
    (Tile.update ⟨none⟩ 0 c5Tile).1.data.geometricError = (999999999 : ℚ) ∧
    (Tile.update ⟨none⟩ 0 c5Tile).1.data.pContentRequest = none ∧
    (Tile.update ⟨none⟩ 0 c5Tile).1.data.state = LoadState.Done ∧
    (∀ bv, c5Content.updatedBoundingVolume = some bv →
      (Tile.update ⟨none⟩ 0 c5Tile).1.data.boundingVolume = bv) :=
  claim_C5 ⟨none⟩ 0 c5Tile c5Content rfl rfl rfl

/-- Running `update` on a `ContentLoaded` tile always ends in `Done`. -/
theorem update_state_done (ext : TilesetExternals) (self : TilePtr) (t : Tile)
    (hst : t.data.state = LoadState.ContentLoaded) :
    (Tile.update ext self t).1.data.state = LoadState.Done := by
  simp [Tile.update, hst]

/-- Running `update` never touches `children` outside the `ContentLoaded` branch. -/
theorem update_children_stable (ext : TilesetExternals) (self : TilePtr)
    (t : Tile) (h : t.data.state ≠ LoadState.ContentLoaded) :
    (Tile.update ext self t).1.data.children = t.data.children := by
  by_cases hd : t.data.state = LoadState.Done <;>
    simp [Tile.update, h, hd]

/-- Claim C6: `update` on a `ContentLoaded` tile with no pre-existing
children and content carrying child tiles adopts them exactly once: each
child's parent is set to this tile and the children become the adopted list;
a subsequent `update` does not re-adopt them. -/
theorem claim_C6 (ext ext2 : TilesetExternals) (self self2 : TilePtr)
    (t : Tile) (c : TileContent) (kids : List Tile)
    (hst : t.data.state = LoadState.ContentLoaded)
    (hch : t.data.children = [])
    (hc : t.data.pContent = some c)
    (hkids : c.childTiles = some kids) :
    (Tile.update ext self t).1.data.children =
      kids.map (fun k => Tile.setParent k self) ∧
    (∀ k ∈ (Tile.update ext self t).1.data.children,
      k.data.pParent = some self) ∧
    (Tile.update ext2 self2 (Tile.update ext self t).1).1.data.children =
      (Tile.update ext self t).1.data.children := by
  have hch0 : t.data.children.length = 0 := by rw [hch]; rfl
  have h1 : (Tile.update ext self t).1.data.children =
      kids.map (fun k => Tile.setParent k self) := by
    cases hpp : ext.pPrepareRendererResources <;>
      cases hbv : c.updatedBoundingVolume <;>
      by_cases hm : c.model = none <;>
      simp [Tile.update, hst, hc, hkids, hch0, hpp, hbv, hm]
  refine ⟨h1, ?_, ?_⟩
  · intro k hk
    rw [h1] at hk
    obtain ⟨k', _, rfl⟩ := List.mem_map.mp hk
    rfl
  · have hdone := update_state_done ext self t hst
    exact update_children_stable ext2 self2 _ (by rw [hdone]; decide)

/-- Content adopting two child tiles, for the C6 witness. -/
def c6Content : TileContent :=
  { model := some 2
    childTiles := some [Tile.init, Tile.init]
    updatedBoundingVolume := none }

/-- A childless `ContentLoaded` tile whose content carries child tiles, for
the C6 witness. -/
def c6Tile : Tile :=
  Tile.mk { Tile.init.data with
    state := LoadState.ContentLoaded
    pContent := some c6Content }

theorem claim_C6_witness :
    (Tile.update ⟨none⟩ 42 c6Tile).1.data.children =
      [Tile.init, Tile.init].map (fun k => Tile.setParent k 42) ∧
    (∀ k ∈ (Tile.update ⟨none⟩ 42 c6Tile).1.data.children,
      k.data.pParent = some 42) ∧
    (Tile.update ⟨none⟩ 7 (Tile.update ⟨none⟩ 42 c6Tile).1).1.data.children =
      (Tile.update ⟨none⟩ 42 c6Tile).1.data.children :=
  claim_C6 ⟨none⟩ ⟨none⟩ 42 7 c6Tile c6Content [Tile.init, Tile.init]
    rfl rfl rfl rfl

/-- Claim C9: `update` is the identity (no state transition, no events at
all) on tiles whose state is neither `ContentLoaded` nor `Done`. -/
theorem claim_C9 (ext : TilesetExternals) (self : TilePtr) (t : Tile)
    (h1 : t.data.state ≠ LoadState.ContentLoaded)
    (h2 : t.data.state ≠ LoadState.Done) :
    Tile.update ext self t = (t, []) := by
  simp [Tile.update, h1, h2]

/-- A failed tile still holding its request, for the C9 witness. -/
def c9Tile : Tile :=
  Tile.mk { Tile.init.data with
    state := LoadState.Failed
    pContentRequest := some c1Request }

theorem claim_C9_witness :
    Tile.update ⟨some ⟨some 1, some 2⟩⟩ 3 c9Tile = (c9Tile, []) :=
  claim_C9 ⟨some ⟨some 1, some 2⟩⟩ 3 c9Tile (by decide) (by decide)

/-- Claim C10: `unloadContent` is idempotent on the tile: on an `Unloaded`
tile with empty content, request, renderer resources and raster tiles it
returns `true` and leaves the tile unchanged, and after any successful
unload a second call returns `true` and leaves the tile exactly as the first
call left it. -/
theorem claim_C10 (ext ext2 : TilesetExternals) (t : Tile) :
    (t.data.state = LoadState.Unloaded → t.data.pContent = none →
      t.data.pContentRequest = none → t.data.pRendererResources = none →
      t.data.rasterTiles = [] →
      (Tile.unloadContent ext t).2.2 = true ∧
      (Tile.unloadContent ext t).1 = t) ∧
    (t.data.state ≠ LoadState.ContentLoading →
      (Tile.unloadContent ext2 (Tile.unloadContent ext t).1).2.2 = true ∧
      (Tile.unloadContent ext2 (Tile.unloadContent ext t).1).1 =
        (Tile.unloadContent ext t).1) := by
  constructor
  · intro hu hc hq hr hrt
    obtain ⟨d⟩ := t
    obtain ⟨f1, f2, f3, f4, f5, f6, f7, f8, f9, f10, f11, f12, f13, f14, f15,
      f16, f17⟩ := d
    simp only [Tile.data_mk] at hu hc hq hr hrt
    subst hu hc hq hr hrt
    cases hpp : ext.pPrepareRendererResources <;>
      simp [Tile.unloadContent, hpp]
  · intro h
    cases hpp : ext.pPrepareRendererResources <;>
      cases hpp2 : ext2.pPrepareRendererResources <;>
      by_cases hcl : t.data.state = LoadState.ContentLoaded <;>
      simp [Tile.unloadContent, h, hpp, hpp2, hcl]

theorem claim_C10_witness :
    ((Tile.unloadContent ⟨none⟩ Tile.init).2.2 = true ∧
      (Tile.unloadContent ⟨none⟩ Tile.init).1 = Tile.init) ∧
    ((Tile.unloadContent ⟨none⟩ (Tile.unloadContent ⟨none⟩ c3DoneTile).1).2.2 =
        true ∧
      (Tile.unloadContent ⟨none⟩ (Tile.unloadContent ⟨none⟩ c3DoneTile).1).1 =
        (Tile.unloadContent ⟨none⟩ c3DoneTile).1) :=
  ⟨(claim_C10 ⟨none⟩ ⟨none⟩ Tile.init).1 rfl rfl rfl rfl rfl,
   (claim_C10 ⟨none⟩ ⟨none⟩ c3DoneTile).2 (by decide)⟩

/-- A renderer adapter whose load-thread preparation would return handle 11,
for the C7 counterexample and witness. -/
def c7Adapter : PrepareRendererResourcesAdapter :=
  { prepareInLoadThreadResult := some 11
    prepareInMainThreadResult := some 12 }

/-- An external-tileset content record: child tiles but no model, for the C7
counterexample. -/
def c7NoModelContent : TileContent :=
  { model := none, childTiles := some [], updatedBoundingVolume := none }

/-- A loading tile, for the C7 counterexample and witness. -/
def c7Tile : Tile :=
  Tile.mk { Tile.init.data with
    state := LoadState.ContentLoading
    pContentRequest := some c1Request }

/-- Claim C7 as stated is false: this decode-task body reaches its final
stage (the state is not `Destroying`), a renderer adapter is present, the
state is advanced to `ContentLoaded` — and yet `prepareInLoadThread` is
never called, because `Tile.cpp:310` guards the whole renderer-prep block
behind `_pContent && _pContent->model`, and this content has no model. -/
theorem claim_C7_counterexample :
    c7Tile.data.state ≠ LoadState.Destroying ∧
    (TilesetExternals.mk (some c7Adapter)).pPrepareRendererResources.isSome ∧
    (Tile.contentDecodeTask ⟨some c7Adapter⟩ (some c7NoModelContent)
      c7Tile).1.data.state = LoadState.ContentLoaded ∧
    Event.prepareInLoadThread ∉
      (Tile.contentDecodeTask ⟨some c7Adapter⟩ (some c7NoModelContent)
        c7Tile).2 := by
  decide

/-- Claim C7 (amended): in every decode-task body that reaches its final
stage, when the decoded content has a model and an adapter is present,
`prepareInLoadThread` is called and its handle is stored in
`rendererResources` before the state is set to `ContentLoaded`; when the
content is absent or has no model, `prepareInLoadThread` is not called even
though the state still becomes `ContentLoaded`. -/
theorem claim_C7_amended (ext : TilesetExternals)
    (a : PrepareRendererResourcesAdapter) (fac : Option TileContent) (t : Tile)
    (hstate : t.data.state ≠ LoadState.Destroying)
    (hpp : ext.pPrepareRendererResources = some a) :
    ((∃ c m, fac = some c ∧ c.model = some m) →
      (∃ tc, (Tile.contentDecodeTask ext fac t).2 =
        Event.createContent :: tc ++
          [Event.prepareInLoadThread, Event.notifyTileDoneLoading,
           Event.setStateEv LoadState.ContentLoaded]) ∧
      (Tile.contentDecodeTask ext fac t).1.data.pRendererResources =
        a.prepareInLoadThreadResult ∧
      (Tile.contentDecodeTask ext fac t).1.data.state =
        LoadState.ContentLoaded) ∧
    ((fac = none ∨ ∃ c, fac = some c ∧ c.model = none) →
      Event.prepareInLoadThread ∉ (Tile.contentDecodeTask ext fac t).2 ∧
      (Tile.contentDecodeTask ext fac t).1.data.pRendererResources =
        t.data.pRendererResources ∧
      (Tile.contentDecodeTask ext fac t).1.data.state =
        LoadState.ContentLoaded) := by
  constructor
  · rintro ⟨c, m, rfl, hm⟩
    by_cases hrt : t.data.rasterTiles = []
    · refine ⟨⟨[], ?_⟩, ?_, ?_⟩ <;>
        simp [Tile.contentDecodeTask, hstate, hm, hrt, hpp]
    · cases hrr : regionRectangle t.data.boundingVolume with
      | none =>
          refine ⟨⟨[], ?_⟩, ?_, ?_⟩ <;>
            simp [Tile.contentDecodeTask, hstate, hm, hrt, hrr, hpp]
      | some rect =>
          refine ⟨⟨(overlayBindingLoop rect [] 0 t.data.rasterTiles).2.2.2, ?_⟩,
              ?_, ?_⟩ <;>
            simp [Tile.contentDecodeTask, hstate, hm, hrt, hrr, hpp]
  · rintro (rfl | ⟨c, rfl, hm⟩)
    · simp [Tile.contentDecodeTask, hstate]
    · simp [Tile.contentDecodeTask, hstate, hm]

/-- A content record with a model, for the C7 witness. -/
def c7ModelContent : TileContent :=
  { model := some 3, childTiles := none, updatedBoundingVolume := none }

theorem claim_C7_amended_witness :
    ((∃ c m, (some c7ModelContent : Option TileContent) = some c ∧
        c.model = some m) →
      (∃ tc, (Tile.contentDecodeTask ⟨some c7Adapter⟩ (some c7ModelContent)
          c7Tile).2 =
        Event.createContent :: tc ++
          [Event.prepareInLoadThread, Event.notifyTileDoneLoading,
           Event.setStateEv LoadState.ContentLoaded]) ∧
      (Tile.contentDecodeTask ⟨some c7Adapter⟩ (some c7ModelContent)
          c7Tile).1.data.pRendererResources =
        c7Adapter.prepareInLoadThreadResult ∧
      (Tile.contentDecodeTask ⟨some c7Adapter⟩ (some c7ModelContent)
          c7Tile).1.data.state = LoadState.ContentLoaded) ∧
    (((some c7ModelContent : Option TileContent) = none ∨
        ∃ c, (some c7ModelContent : Option TileContent) = some c ∧
          c.model = none) →
      Event.prepareInLoadThread ∉
        (Tile.contentDecodeTask ⟨some c7Adapter⟩ (some c7ModelContent)
          c7Tile).2 ∧
      (Tile.contentDecodeTask ⟨some c7Adapter⟩ (some c7ModelContent)
          c7Tile).1.data.pRendererResources =
        c7Tile.data.pRendererResources ∧
      (Tile.contentDecodeTask ⟨some c7Adapter⟩ (some c7ModelContent)
          c7Tile).1.data.state = LoadState.ContentLoaded) :=
  claim_C7_amended ⟨some c7Adapter⟩ c7Adapter (some c7ModelContent) c7Tile
    (by decide) rfl

/-- A loaded tile with every movable field populated, for the C8
counterexample and witness. -/
def c8Tile : Tile :=
  Tile.mk { Tile.init.data with
    state := LoadState.Done
    pTileset := some 1
    pParent := some 2
    pContent := some c3Content
    pRendererResources := some 9
    rasterTiles :=
      [{ rasterTile := { tileProvider := { projection := 4 } },
         textureCoordinateID := 1, attachmentState := AttachmentState.Attached }] }

/-- Claim C8 as stated is false for `rasterTiles`: moving out of `c8Tile`
(state `Done`, so the precondition holds) leaves the move-constructed tile
with empty raster tiles while the source keeps its mapping — the member is
absent from both the move constructor's initializer list and the move
assignment's body — and move-assigning into a default tile likewise leaves
the destination's raster tiles empty. -/
theorem claim_C8_counterexample :
    c8Tile.data.state ≠ LoadState.ContentLoading ∧
    c8Tile.data.rasterTiles ≠ [] ∧
    (Tile.moveConstruct c8Tile).1.data.rasterTiles = [] ∧
    (Tile.moveConstruct c8Tile).2.data.rasterTiles = c8Tile.data.rasterTiles ∧
    (Tile.moveAssign Tile.init c8Tile).1.data.rasterTiles = [] := by
  decide

/-- Claim C8 (amended): moves (precondition: not `ContentLoading`) transfer
ownership of `content` and `contentRequest`, copy the tileset and parent
back-references and the state (atomic load/store); `rasterTiles` is NOT
transferred — move construction leaves the destination's raster tiles empty
and the source's untouched, and move assignment leaves both sides' raster
tiles where they were. -/
theorem claim_C8_amended (dst rhs : Tile)
    (h : rhs.data.state ≠ LoadState.ContentLoading) :
    ((Tile.moveConstruct rhs).1.data.pContent = rhs.data.pContent ∧
     (Tile.moveConstruct rhs).1.data.pContentRequest = rhs.data.pContentRequest ∧
     (Tile.moveConstruct rhs).2.data.pContent = none ∧
     (Tile.moveConstruct rhs).2.data.pContentRequest = none ∧
     (Tile.moveConstruct rhs).1.data.pTileset = rhs.data.pTileset ∧
     (Tile.moveConstruct rhs).1.data.pParent = rhs.data.pParent ∧
     (Tile.moveConstruct rhs).1.data.state = rhs.data.state ∧
     (Tile.moveConstruct rhs).1.data.rasterTiles = [] ∧
     (Tile.moveConstruct rhs).2.data.rasterTiles = rhs.data.rasterTiles) ∧
    ((Tile.moveAssign dst rhs).1.data.pContent = rhs.data.pContent ∧
     (Tile.moveAssign dst rhs).1.data.pContentRequest = rhs.data.pContentRequest ∧
     (Tile.moveAssign dst rhs).2.data.pContent = none ∧
     (Tile.moveAssign dst rhs).2.data.pContentRequest = none ∧
     (Tile.moveAssign dst rhs).1.data.pTileset = rhs.data.pTileset ∧
     (Tile.moveAssign dst rhs).1.data.pParent = rhs.data.pParent ∧
     (Tile.moveAssign dst rhs).1.data.state = rhs.data.state ∧
     (Tile.moveAssign dst rhs).1.data.rasterTiles = dst.data.rasterTiles ∧
     (Tile.moveAssign dst rhs).2.data.rasterTiles = rhs.data.rasterTiles) :=
  ⟨⟨rfl, rfl, rfl, rfl, rfl, rfl, rfl, rfl, rfl⟩,
   ⟨rfl, rfl, rfl, rfl, rfl, rfl, rfl, rfl, rfl⟩⟩

theorem claim_C8_amended_witness :
    ((Tile.moveConstruct c8Tile).1.data.pContent = c8Tile.data.pContent ∧
     (Tile.moveConstruct c8Tile).1.data.pContentRequest =
       c8Tile.data.pContentRequest ∧
     (Tile.moveConstruct c8Tile).2.data.pContent = none ∧
     (Tile.moveConstruct c8Tile).2.data.pContentRequest = none ∧
     (Tile.moveConstruct c8Tile).1.data.pTileset = c8Tile.data.pTileset ∧
     (Tile.moveConstruct c8Tile).1.data.pParent = c8Tile.data.pParent ∧
     (Tile.moveConstruct c8Tile).1.data.state = c8Tile.data.state ∧
     (Tile.moveConstruct c8Tile).1.data.rasterTiles = [] ∧
     (Tile.moveConstruct c8Tile).2.data.rasterTiles =
       c8Tile.data.rasterTiles) ∧
    ((Tile.moveAssign Tile.init c8Tile).1.data.pContent =
       c8Tile.data.pContent ∧
     (Tile.moveAssign Tile.init c8Tile).1.data.pContentRequest =
       c8Tile.data.pContentRequest ∧
     (Tile.moveAssign Tile.init c8Tile).2.data.pContent = none ∧
     (Tile.moveAssign Tile.init c8Tile).2.data.pContentRequest = none ∧
     (Tile.moveAssign Tile.init c8Tile).1.data.pTileset =
       c8Tile.data.pTileset ∧
     (Tile.moveAssign Tile.init c8Tile).1.data.pParent =
       c8Tile.data.pParent ∧
     (Tile.moveAssign Tile.init c8Tile).1.data.state = c8Tile.data.state ∧
     (Tile.moveAssign Tile.init c8Tile).1.data.rasterTiles =
       Tile.init.data.rasterTiles ∧
     (Tile.moveAssign Tile.init c8Tile).2.data.rasterTiles =
       c8Tile.data.rasterTiles) :=
  claim_C8_amended Tile.init c8Tile (by decide)

end Cesium3DTiles
